import Mathlib

/-!
Verification of the smart-parking frontend's reservation-status logic.

The definitions below are shallow embeddings of:
* getSlotStatus and renderParkingSpots from
  src/frontend/src/pages/basic-user/ParkingSlots.tsx,
* the periodic status-update effect, getStatusBadge from
  src/frontend/src/pages/admin/AdminReservationsPage.tsx,
* AuthProvider.login from the authentication context (src/unnamed/part_004),
* handleVehiclePlateChange from ParkingSlots.tsx.

Timestamps are modelled as integers (JavaScript Date comparisons compare
millisecond values); statuses are modelled as strings, exactly the string
literals the TypeScript code compares against.
-/

namespace SmartParking

/-- The current_reservation object attached to a parking spot
(fields used by getSlotStatus in ParkingSlots.tsx). -/
structure CurrentReservation where
  id : Int
  user : Int
  status : String
  start_time : Int
  end_time : Int
deriving Repr, DecidableEq

/-- A parking spot as consumed by getSlotStatus (ParkingSlots.tsx):
only is_occupied and current_reservation influence the computed status. -/
structure ParkingSpot where
  id : Int
  is_occupied : Bool
  current_reservation : Option CurrentReservation
deriving Repr, DecidableEq

/-- The viewing user (from useAuth); only the id is consulted. -/
structure Viewer where
  id : Int
deriving Repr, DecidableEq

/-- The record returned by getSlotStatus: a text label, a Bootstrap variant,
and the optional cancel capability carrying the reservation id. -/
structure SlotStatus where
  text : String
  variant : String
  canCancel : Bool := false
  reservationId : Option Int := none
deriving Repr, DecidableEq

/-- The TypeScript guard user && spot.current_reservation.user === user.id. -/
def isOwner (user : Option Viewer) (res : CurrentReservation) : Bool :=
  match user with
  | some u => res.user == u.id
  | none => false

/-- The trailing part of getSlotStatus reached when no reservation branch
returned: if (spot.is_occupied) return Occupied; return Available. -/
def occupancyFallback (spot : ParkingSpot) : SlotStatus :=
  if spot.is_occupied then { text := "Occupied", variant := "danger" }
  else { text := "Available", variant := "success" }

/-- Shallow embedding of getSlotStatus (ParkingSlots.tsx lines 281-311).
The branches are in source order; first match wins. -/
def getSlotStatus (spot : ParkingSpot) (user : Option Viewer) (now : Int) :
    SlotStatus :=
  match spot.current_reservation with
  | some res =>
      if res.status = "PENDING" ∧ isOwner user res = true then
        { text := "Pending", variant := "warning", canCancel := true,
          reservationId := some res.id }
      else if res.status = "CONFIRMED" ∧
          (res.start_time ≤ now ∧ now ≤ res.end_time) then
        { text := "Occupied", variant := "danger" }
      else if res.status = "CONFIRMED" ∧ now < res.start_time then
        { text := "Confirmed", variant := "primary" }
      else occupancyFallback spot
  | none => occupancyFallback spot

/-- The actions a rendered slot offers. -/
inductive Action where
  | reserve : Action
  | cancel : Int → Action
deriving Repr, DecidableEq

/-- The action set renderParkingSpots (ParkingSlots.tsx lines 318-372)
derives from a slot status: a Reserve button exactly when the status is
Available with variant success, and a Cancel button exactly when canCancel
is set (carrying status.reservationId). -/
def slotActions (s : SlotStatus) : List Action :=
  (if s.variant = "success" ∧ s.text = "Available" then [Action.reserve]
   else []) ++
  (if s.canCancel then
    match s.reservationId with
    | some i => [Action.cancel i]
    | none => []
   else [])

/-- A reservation as held in the admin page's allReservations state
(fields used by the auto-update effect and getStatusBadge in
AdminReservationsPage.tsx). -/
structure AdminReservation where
  id : Int
  status : String
  start_time : Int
  end_time : Int
  created_at : Int
deriving Repr, DecidableEq

/-- Shallow embedding of the body of the periodic status-update effect
(AdminReservationsPage.tsx lines 155-176), applied to one reservation:
PENDING with endTime <= now becomes EXPIRED, CONFIRMED with
endTime <= now becomes COMPLETED, everything else is returned unchanged. -/
def autoUpdateStep (r : AdminReservation) (now : Int) : AdminReservation :=
  if r.status = "PENDING" ∧ r.end_time ≤ now then
    { r with status := "EXPIRED" }
  else if r.status = "CONFIRMED" ∧ r.end_time ≤ now then
    { r with status := "COMPLETED" }
  else r

/-- Iterating the status-update effect over a sequence of observation
times (the effect fires every second; each firing applies autoUpdateStep
with the wall-clock time of that firing). -/
def autoUpdateSteps (r : AdminReservation) (times : List Int) :
    AdminReservation :=
  times.foldl autoUpdateStep r

/-- The text shown by getStatusBadge (AdminReservationsPage.tsx lines
243-271): COMPLETED for a CONFIRMED reservation whose end time has
passed, otherwise the stored status string itself. -/
def getStatusBadgeText (r : AdminReservation) (now : Int) : String :=
  if r.status = "CONFIRMED" ∧ r.end_time ≤ now then "COMPLETED"
  else r.status

/-- A user record as returned by the current-user endpoint; only the role
is consulted by the login flow (src/unnamed/part_004). -/
structure AuthUser where
  id : Int
  role : String
deriving Repr, DecidableEq

/-- The authentication state AuthProvider.login manipulates: the React
token and user state, the three localStorage entries, and the axios
default Authorization header (src/unnamed/part_004). -/
structure AuthState where
  token : Option String
  user : Option AuthUser
  storedAccess : Option String
  storedRefresh : Option String
  storedUser : Option AuthUser
  axiosAuthHeader : Option String
deriving Repr, DecidableEq

/-- The catch block of AuthProvider.login (src/unnamed/part_004): remove
access_token, refresh_token and user from localStorage, null out the
token and user state, and delete the axios Authorization header. -/
def clearAuth (_s : AuthState) : AuthState :=
  { token := none, user := none, storedAccess := none,
    storedRefresh := none, storedUser := none, axiosAuthHeader := none }

/-- Shallow embedding of AuthProvider.login (src/unnamed/part_004 lines
77-127). The two HTTP requests are modelled by their outcomes: tokenResp
is the token endpoint response (none = request failed), userResp the
current-user endpoint response (none = request failed). Returns the
resulting state and whether the login succeeded. The source stores
access and refresh tokens before fetching the user, throws when isAdmin
is set but the fetched role is not ADMIN, and on any thrown error runs
the catch block clearing everything. -/
def login (s : AuthState) (isAdmin : Bool)
    (tokenResp : Option (String × String)) (userResp : Option AuthUser) :
    AuthState × Bool :=
  match tokenResp with
  | none => (clearAuth s, false)
  | some (access, refresh) =>
      let s1 : AuthState :=
        { s with storedAccess := some access, storedRefresh := some refresh }
      match userResp with
      | none => (clearAuth s1, false)
      | some userData =>
          if isAdmin = true ∧ userData.role ≠ "ADMIN" then
            (clearAuth s1, false)
          else
            let s2 : AuthState :=
              { s1 with
                storedUser := some userData
                token := some access
                user := some userData
                axiosAuthHeader := some access }
            (s2, true)

/-- A character admitted by the plate regex character class [A-Z0-9]. -/
def isPlateChar (c : Char) : Bool :=
  (decide ('A' ≤ c) && decide (c ≤ 'Z')) ||
  (decide ('0' ≤ c) && decide (c ≤ '9'))

/-- The test /^[A-Z0-9]*$/.test(value): every character of the string is
an uppercase letter or digit. -/
def plateRegexOk (s : String) : Bool :=
  s.data.all isPlateChar

/-- Shallow embedding of handleVehiclePlateChange (ParkingSlots.tsx lines
206-211): uppercase the incoming value; store it only if it matches
/^[A-Z0-9]*$/ and has length at most 6, otherwise keep the previous
plate. Char.toUpper models String.prototype.toUpperCase (they agree on
all strings the regex can accept). -/
def handleVehiclePlateChange (prev input : String) : String :=
  let value := input.map Char.toUpper
  if plateRegexOk value = true ∧ value.length ≤ 6 then value else prev

/-- The invariant claimed for the stored plate: it matches
the pattern of at most six characters drawn from [A-Z0-9]. -/
def platePatternOk (s : String) : Prop :=
  plateRegexOk s = true ∧ s.length ≤ 6

instance (s : String) : Decidable (platePatternOk s) := by
  unfold platePatternOk; infer_instance

/-- None of the three reservation branches of getSlotStatus fires: the
viewer does not own a PENDING reservation, and the reservation is not
CONFIRMED inside or before its window. Trivially true when the slot has
no current reservation. -/
def noReservationRuleMatches (spot : ParkingSpot) (user : Option Viewer)
    (now : Int) : Prop :=
  match spot.current_reservation with
  | none => True
  | some res =>
      ¬(res.status = "PENDING" ∧ isOwner user res = true) ∧
      ¬(res.status = "CONFIRMED" ∧
        (res.start_time ≤ now ∧ now ≤ res.end_time)) ∧
      ¬(res.status = "CONFIRMED" ∧ now < res.start_time)

/-- Position of a label in the claimed progression
Pending, Confirmed, Occupied, Completed; labels outside the chain
(Available, Expired) have no position. -/
def chainPos : String → Option Nat
  | "Pending" => some 0
  | "Confirmed" => some 1
  | "Occupied" => some 2
  | "Completed" => some 3
  | _ => none

/-- l2 sits strictly earlier than l1 in the chain
Pending, Confirmed, Occupied, Completed. -/
def chainLt (l1 l2 : String) : Bool :=
  match chainPos l1, chainPos l2 with
  | some i, some j => decide (j < i)
  | _, _ => false

/-- The later label l2 moves backward relative to the earlier label l1,
in the sense of the claimed progressions: strictly earlier in the chain
Pending, Confirmed, Occupied, Completed; or back from Expired to Pending;
or, in particular, any of Pending, Confirmed, Available after a terminal
Completed or Expired label. -/
def movesBackward (l1 l2 : String) : Prop :=
  chainLt l1 l2 = true ∨
  (l1 = "Expired" ∧ l2 = "Pending") ∨
  ((l1 = "Completed" ∨ l1 = "Expired") ∧
    (l2 = "Pending" ∨ l2 = "Confirmed" ∨ l2 = "Available"))

instance (l1 l2 : String) : Decidable (movesBackward l1 l2) := by
  unfold movesBackward; infer_instance

/-- The three statuses the lifecycle calls terminal. -/
def terminalStatus (r : AdminReservation) : Prop :=
  r.status = "CANCELLED" ∨ r.status = "COMPLETED" ∨ r.status = "EXPIRED"

/-! Concrete records used by counterexamples and witnesses. -/

/-- A PENDING reservation owned by user 7 whose window [0, 10] is over. -/
def resPendingOverdue : CurrentReservation :=
  { id := 1, user := 7, status := "PENDING", start_time := 0, end_time := 10 }

/-- A spot holding resPendingOverdue, not flagged occupied. -/
def spotPendingOverdue : ParkingSpot :=
  { id := 100, is_occupied := false,
    current_reservation := some resPendingOverdue }

/-- The viewer owning resPendingOverdue. -/
def ownerViewer : Viewer := { id := 7 }

/-- A CONFIRMED reservation whose window [0, 10] is over. -/
def resConfirmedPast : CurrentReservation :=
  { id := 2, user := 7, status := "CONFIRMED", start_time := 0, end_time := 10 }

/-- A spot holding resConfirmedPast, not flagged occupied. -/
def spotConfirmedPast : ParkingSpot :=
  { id := 101, is_occupied := false,
    current_reservation := some resConfirmedPast }

/-- A malformed CONFIRMED reservation with start_time = end_time = 5. -/
def resDegenerate : CurrentReservation :=
  { id := 3, user := 7, status := "CONFIRMED", start_time := 5, end_time := 5 }

/-- A spot holding resDegenerate. -/
def spotDegenerate : ParkingSpot :=
  { id := 102, is_occupied := false, current_reservation := some resDegenerate }

/-- A CANCELLED reservation on window [0, 10]. -/
def resCancelled : CurrentReservation :=
  { id := 4, user := 7, status := "CANCELLED", start_time := 0, end_time := 10 }

/-- An occupied-flagged spot holding resCancelled. -/
def spotCancelledOccupied : ParkingSpot :=
  { id := 103, is_occupied := true, current_reservation := some resCancelled }

/-- An empty, unoccupied spot. -/
def spotEmpty : ParkingSpot :=
  { id := 104, is_occupied := false, current_reservation := none }

/-- A PENDING admin-page reservation on window [0, 10]. -/
def adminPending : AdminReservation :=
  { id := 10, status := "PENDING", start_time := 0, end_time := 10,
    created_at := 0 }

/-- A CONFIRMED admin-page reservation on window [0, 10]. -/
def adminConfirmed : AdminReservation :=
  { id := 11, status := "CONFIRMED", start_time := 0, end_time := 10,
    created_at := 0 }

/-- A CANCELLED admin-page reservation on window [0, 10]. -/
def adminCancelled : AdminReservation :=
  { id := 12, status := "CANCELLED", start_time := 0, end_time := 10,
    created_at := 0 }

/-- An authentication state holding a full session, used to show that a
failing login clears a previously populated session. -/
def fullSession : AuthState :=
  { token := some "tok", user := some { id := 1, role := "USER" },
    storedAccess := some "tok", storedRefresh := some "ref",
    storedUser := some { id := 1, role := "USER" },
    axiosAuthHeader := some "tok" }

/-! Helper lemmas shared by the claim theorems. -/

/-- The occupancy fallback only produces the labels Occupied or
Available. -/
lemma occupancyFallback_text (spot : ParkingSpot) :
    (occupancyFallback spot).text = "Occupied" ∨
    (occupancyFallback spot).text = "Available" := by
  unfold occupancyFallback
  split_ifs <;> simp

/-- getSlotStatus only ever produces the four labels Pending, Occupied,
Confirmed, Available. -/
lemma getSlotStatus_text_cases (spot : ParkingSpot) (user : Option Viewer)
    (now : Int) :
    (getSlotStatus spot user now).text = "Pending" ∨
    (getSlotStatus spot user now).text = "Occupied" ∨
    (getSlotStatus spot user now).text = "Confirmed" ∨
    (getSlotStatus spot user now).text = "Available" := by
  cases hc : spot.current_reservation with
  | none =>
      simp only [getSlotStatus, hc]
      rcases occupancyFallback_text spot with h | h <;> simp [h]
  | some res =>
      simp only [getSlotStatus, hc]
      split_ifs
      · simp
      · simp
      · simp
      · rcases occupancyFallback_text spot with h | h <;> simp [h]

/-- When no branch guard holds, getSlotStatus returns the occupancy
fallback. -/
lemma getSlotStatus_fallback (spot : ParkingSpot) (user : Option Viewer)
    (now : Int) (h : noReservationRuleMatches spot user now) :
    getSlotStatus spot user now = occupancyFallback spot := by
  unfold noReservationRuleMatches at h
  cases hc : spot.current_reservation with
  | none => simp only [getSlotStatus, hc]
  | some res =>
      rw [hc] at h
      obtain ⟨h1, h2, h3⟩ := h
      simp only [getSlotStatus, hc]
      rw [if_neg h1, if_neg h2, if_neg h3]

/-- One auto-update step leaves a terminal reservation unchanged. -/
lemma autoUpdateStep_terminal (r : AdminReservation) (now : Int)
    (h : terminalStatus r) : autoUpdateStep r now = r := by
  rcases h with h | h | h <;> simp [autoUpdateStep, h]

/-- Any sequence of auto-update steps leaves a terminal reservation
unchanged. -/
lemma autoUpdateSteps_terminal (r : AdminReservation) (times : List Int)
    (h : terminalStatus r) : autoUpdateSteps r times = r := by
  induction times with
  | nil => rfl
  | cons t ts ih =>
      unfold autoUpdateSteps at *
      rw [List.foldl_cons, autoUpdateStep_terminal r t h]
      exact ih

/-! Claim theorems. -/

/-- C4: for every reservation with status CONFIRMED and every evaluation
time strictly between start_time and end_time, getSlotStatus returns the
label Occupied with variant danger, no cancel capability, and an empty
action set, for every viewer. -/
theorem confirmed_within_window_occupied_no_actions (spot : ParkingSpot)
    (res : CurrentReservation) (user : Option Viewer) (now : Int)
    (hres : spot.current_reservation = some res)
    (hst : res.status = "CONFIRMED")
    (h1 : res.start_time < now) (h2 : now < res.end_time) :
    getSlotStatus spot user now = { text := "Occupied", variant := "danger" } ∧
    slotActions (getSlotStatus spot user now) = [] := by
  have hocc : getSlotStatus spot user now =
      { text := "Occupied", variant := "danger" } := by
    simp only [getSlotStatus, hres]
    rw [if_neg (by simp [hst]), if_pos ⟨hst, le_of_lt h1, le_of_lt h2⟩]
  refine ⟨hocc, ?_⟩
  rw [hocc]
  rfl

/-- C4 witness: the CONFIRMED reservation on [0, 10] evaluated at time 5
is Occupied with no actions. -/
theorem confirmed_within_window_occupied_no_actions_witness :
    getSlotStatus spotConfirmedPast none 5 =
      { text := "Occupied", variant := "danger" } ∧
    slotActions (getSlotStatus spotConfirmedPast none 5) = [] :=
  confirmed_within_window_occupied_no_actions spotConfirmedPast
    resConfirmedPast none 5 rfl rfl (by decide) (by decide)

/-- C6: a PENDING reservation viewed by its owner is labelled Pending
with exactly the cancel action carrying the reservation id, whatever the
evaluation time: this branch is tested before any time comparison. -/
theorem pending_owner_always_cancelable (spot : ParkingSpot)
    (res : CurrentReservation) (user : Option Viewer) (u : Viewer)
    (now : Int) (hres : spot.current_reservation = some res)
    (hst : res.status = "PENDING") (hu : user = some u)
    (hown : res.user = u.id) :
    getSlotStatus spot user now =
      { text := "Pending", variant := "warning", canCancel := true,
        reservationId := some res.id } ∧
    slotActions (getSlotStatus spot user now) = [Action.cancel res.id] := by
  have hpend : getSlotStatus spot user now =
      { text := "Pending", variant := "warning", canCancel := true,
        reservationId := some res.id } := by
    simp only [getSlotStatus, hres]
    rw [if_pos ⟨hst, by simp [isOwner, hu, hown]⟩]
  refine ⟨hpend, ?_⟩
  rw [hpend]
  rfl

/-- C6 witness: the overdue PENDING reservation owned by user 7, viewed
by user 7 at time 20, is Pending with exactly the cancel action. -/
theorem pending_owner_always_cancelable_witness :
    getSlotStatus spotPendingOverdue (some ownerViewer) 20 =
      { text := "Pending", variant := "warning", canCancel := true,
        reservationId := some resPendingOverdue.id } ∧
    slotActions (getSlotStatus spotPendingOverdue (some ownerViewer) 20) =
      [Action.cancel resPendingOverdue.id] :=
  pending_owner_always_cancelable spotPendingOverdue resPendingOverdue
    (some ownerViewer) ownerViewer 20 rfl rfl rfl rfl

/-- C7: a slot with no current reservation and the occupancy flag unset
is Available with exactly the reserve action; a slot with the occupancy
flag set on which no reservation branch fires is Occupied with an empty
action set. -/
theorem available_and_occupied_fallback :
    (∀ (spot : ParkingSpot) (user : Option Viewer) (now : Int),
      spot.current_reservation = none → spot.is_occupied = false →
      getSlotStatus spot user now =
        { text := "Available", variant := "success" } ∧
      slotActions (getSlotStatus spot user now) = [Action.reserve]) ∧
    (∀ (spot : ParkingSpot) (user : Option Viewer) (now : Int),
      spot.is_occupied = true → noReservationRuleMatches spot user now →
      getSlotStatus spot user now =
        { text := "Occupied", variant := "danger" } ∧
      slotActions (getSlotStatus spot user now) = []) := by
  constructor
  · intro spot user now hres hocc
    have havail : getSlotStatus spot user now =
        { text := "Available", variant := "success" } := by
      simp only [getSlotStatus, hres]
      unfold occupancyFallback
      rw [hocc]
      rfl
    refine ⟨havail, ?_⟩
    rw [havail]
    rfl
  · intro spot user now hocc hnone
    have hoccst : getSlotStatus spot user now =
        { text := "Occupied", variant := "danger" } := by
      rw [getSlotStatus_fallback spot user now hnone]
      unfold occupancyFallback
      rw [hocc]
      rfl
    refine ⟨hoccst, ?_⟩
    rw [hoccst]
    rfl

/-- C7 witness: the empty unoccupied spot is Available with the reserve
action, and the occupied spot holding only a CANCELLED reservation is
Occupied with no actions. -/
theorem available_and_occupied_fallback_witness :
    (getSlotStatus spotEmpty none 0 =
        { text := "Available", variant := "success" } ∧
      slotActions (getSlotStatus spotEmpty none 0) = [Action.reserve]) ∧
    (getSlotStatus spotCancelledOccupied none 0 =
        { text := "Occupied", variant := "danger" } ∧
      slotActions (getSlotStatus spotCancelledOccupied none 0) = []) :=
  ⟨available_and_occupied_fallback.1 spotEmpty none 0 rfl rfl,
   available_and_occupied_fallback.2 spotCancelledOccupied none 0 rfl
     (by unfold noReservationRuleMatches spotCancelledOccupied; simp [resCancelled])⟩

/-- C8: one auto-update step maps PENDING to EXPIRED and CONFIRMED to
COMPLETED exactly when the end time has passed, leaves CANCELLED,
COMPLETED and EXPIRED reservations unchanged, and hence no sequence of
steps ever changes a reservation once its status is terminal. -/
theorem auto_update_terminal_absorbing :
    (∀ (r : AdminReservation) (now : Int), r.status = "PENDING" →
      (r.end_time ≤ now → autoUpdateStep r now = { r with status := "EXPIRED" }) ∧
      (now < r.end_time → autoUpdateStep r now = r)) ∧
    (∀ (r : AdminReservation) (now : Int), r.status = "CONFIRMED" →
      (r.end_time ≤ now → autoUpdateStep r now = { r with status := "COMPLETED" }) ∧
      (now < r.end_time → autoUpdateStep r now = r)) ∧
    (∀ (r : AdminReservation) (now : Int), terminalStatus r →
      autoUpdateStep r now = r) ∧
    (∀ (r : AdminReservation) (times : List Int), terminalStatus r →
      autoUpdateSteps r times = r) := by
  refine ⟨?_, ?_, autoUpdateStep_terminal, autoUpdateSteps_terminal⟩
  · intro r now hst
    constructor
    · intro hend
      unfold autoUpdateStep
      rw [if_pos ⟨hst, hend⟩]
    · intro hend
      unfold autoUpdateStep
      rw [if_neg (by rintro ⟨-, h⟩; omega), if_neg (by simp [hst])]
  · intro r now hst
    constructor
    · intro hend
      unfold autoUpdateStep
      rw [if_neg (by simp [hst]), if_pos ⟨hst, hend⟩]
    · intro hend
      unfold autoUpdateStep
      rw [if_neg (by simp [hst]), if_neg (by rintro ⟨-, h⟩; omega)]

/-- C8 witness: at time 10 the PENDING reservation on [0, 10] expires and
the CONFIRMED one completes; at time 9 both are unchanged; the CANCELLED
one is unchanged by a whole sequence of steps. -/
theorem auto_update_terminal_absorbing_witness :
    autoUpdateStep adminPending 10 = { adminPending with status := "EXPIRED" } ∧
    autoUpdateStep adminPending 9 = adminPending ∧
    autoUpdateStep adminConfirmed 10 =
      { adminConfirmed with status := "COMPLETED" } ∧
    autoUpdateStep adminConfirmed 9 = adminConfirmed ∧
    autoUpdateStep adminCancelled 10 = adminCancelled ∧
    autoUpdateSteps adminCancelled [5, 10, 15] = adminCancelled :=
  ⟨(auto_update_terminal_absorbing.1 adminPending 10 rfl).1 (by decide),
   (auto_update_terminal_absorbing.1 adminPending 9 rfl).2 (by decide),
   (auto_update_terminal_absorbing.2.1 adminConfirmed 10 rfl).1 (by decide),
   (auto_update_terminal_absorbing.2.1 adminConfirmed 9 rfl).2 (by decide),
   auto_update_terminal_absorbing.2.2.1 adminCancelled 10 (Or.inl rfl),
   auto_update_terminal_absorbing.2.2.2 adminCancelled [5, 10, 15]
     (Or.inl rfl)⟩

/-- C9: every failing outcome of the login operation (token request
failed, current-user request failed, or a non-ADMIN user on the admin
path) leaves no partial session: token and user state are null, the
stored access token, refresh token and user entries are removed, and the
axios Authorization header is deleted. -/
theorem login_failure_clears_session (s : AuthState) (isAdmin : Bool)
    (tokenResp : Option (String × String)) (userResp : Option AuthUser)
    (hfail : (login s isAdmin tokenResp userResp).2 = false) :
    (login s isAdmin tokenResp userResp).1.token = none ∧
    (login s isAdmin tokenResp userResp).1.user = none ∧
    (login s isAdmin tokenResp userResp).1.storedAccess = none ∧
    (login s isAdmin tokenResp userResp).1.storedRefresh = none ∧
    (login s isAdmin tokenResp userResp).1.storedUser = none := by
  rcases tokenResp with - | ⟨access, refresh⟩
  · simp [login, clearAuth]
  · rcases userResp with - | userData
    · simp [login, clearAuth]
    · by_cases hc : isAdmin = true ∧ userData.role ≠ "ADMIN"
      · simp [login, clearAuth, hc]
      · simp [login, clearAuth, hc] at hfail

/-- C9 witness: a failing admin login of a USER-role account over a full
existing session leaves token and user null and all stored entries
removed. -/
theorem login_failure_clears_session_witness :
    (login fullSession true (some ("newTok", "newRef"))
        (some { id := 2, role := "USER" })).2 = false ∧
    (login fullSession true (some ("newTok", "newRef"))
        (some { id := 2, role := "USER" })).1.token = none ∧
    (login fullSession true (some ("newTok", "newRef"))
        (some { id := 2, role := "USER" })).1.user = none ∧
    (login fullSession true (some ("newTok", "newRef"))
        (some { id := 2, role := "USER" })).1.storedAccess = none ∧
    (login fullSession true (some ("newTok", "newRef"))
        (some { id := 2, role := "USER" })).1.storedRefresh = none ∧
    (login fullSession true (some ("newTok", "newRef"))
        (some { id := 2, role := "USER" })).1.storedUser = none := by
  have h := login_failure_clears_session fullSession true
    (some ("newTok", "newRef")) (some { id := 2, role := "USER" })
    (by decide)
  exact ⟨by decide, h⟩

/-- C10: if the stored vehicle plate satisfies the pattern of at most six
characters from [A-Z0-9], it still does after any key-change event, and
an event whose uppercased value violates the pattern leaves the stored
plate unchanged. -/
theorem vehicle_plate_invariant (prev input : String)
    (hprev : platePatternOk prev) :
    platePatternOk (handleVehiclePlateChange prev input) ∧
    (¬ platePatternOk (input.map Char.toUpper) →
      handleVehiclePlateChange prev input = prev) := by
  unfold handleVehiclePlateChange
  by_cases h : platePatternOk (input.map Char.toUpper)
  · unfold platePatternOk at h
    rw [if_pos h]
    exact ⟨h, fun hcon => absurd h hcon⟩
  · unfold platePatternOk at h
    rw [if_neg h]
    exact ⟨hprev, fun _ => rfl⟩

/-- C10 witness: starting from the valid plate AB, the event ab1 is
stored uppercased while the event ab1$ (whose uppercased value violates
the pattern) leaves AB unchanged. -/
theorem vehicle_plate_invariant_witness :
    platePatternOk "AB" ∧
    platePatternOk (handleVehiclePlateChange "AB" "ab1") ∧
    (¬ platePatternOk ("ab1$".map Char.toUpper) →
      handleVehiclePlateChange "AB" "ab1$" = "AB") :=
  ⟨by decide, (vehicle_plate_invariant "AB" "ab1" (by decide)).1,
   (vehicle_plate_invariant "AB" "ab1$" (by decide)).2⟩

/-- C1 counterexample: the PENDING reservation on [0, 10], evaluated at
time 20 (past its end) by its owner, is labelled Pending with a cancel
action: not Expired, and the action set is not empty. -/
theorem pending_overdue_owner_shows_pending_cancel :
    getSlotStatus spotPendingOverdue (some ownerViewer) 20 =
      { text := "Pending", variant := "warning", canCancel := true,
        reservationId := some 1 } ∧
    (getSlotStatus spotPendingOverdue (some ownerViewer) 20).text ≠ "Expired" ∧
    slotActions (getSlotStatus spotPendingOverdue (some ownerViewer) 20) =
      [Action.cancel 1] := by
  refine ⟨by decide, by decide, by decide⟩

/-- C1 (amended): the PENDING-to-EXPIRED transition lives in the admin
page's periodic update step, which sets the status to EXPIRED exactly
when the end time has been reached, independently of any viewer; the
slot-status evaluation getSlotStatus itself never produces the label
Expired, whatever the reservation, viewer and time. -/
theorem pending_expiry_in_admin_step_only :
    (∀ (r : AdminReservation) (now : Int), r.status = "PENDING" →
      (r.end_time ≤ now → autoUpdateStep r now = { r with status := "EXPIRED" }) ∧
      (now < r.end_time → autoUpdateStep r now = r)) ∧
    (∀ (spot : ParkingSpot) (user : Option Viewer) (now : Int),
      (getSlotStatus spot user now).text ≠ "Expired") := by
  constructor
  · intro r now hst
    constructor
    · intro hend
      unfold autoUpdateStep
      rw [if_pos ⟨hst, hend⟩]
    · intro hend
      unfold autoUpdateStep
      rw [if_neg (by rintro ⟨-, h⟩; omega), if_neg (by simp [hst])]
  · intro spot user now
    rcases getSlotStatus_text_cases spot user now with h | h | h | h <;>
      simp [h]

/-- C1 amended witness: the PENDING admin reservation on [0, 10] expires
at time 20 and is untouched at time 5, and the overdue PENDING spot
evaluated by a non-owner is not labelled Expired. -/
theorem pending_expiry_in_admin_step_only_witness :
    autoUpdateStep adminPending 20 = { adminPending with status := "EXPIRED" } ∧
    autoUpdateStep adminPending 5 = adminPending ∧
    (getSlotStatus spotPendingOverdue none 20).text ≠ "Expired" :=
  ⟨(pending_expiry_in_admin_step_only.1 adminPending 20 rfl).1 (by decide),
   (pending_expiry_in_admin_step_only.1 adminPending 5 rfl).2 (by decide),
   pending_expiry_in_admin_step_only.2 spotPendingOverdue none 20⟩

/-- C2 counterexample: the CONFIRMED reservation on [0, 10], evaluated at
time 20 (past its end) on an unoccupied spot, is labelled Available with
a reserve action: not Completed with an empty action set. -/
theorem confirmed_past_end_shows_available :
    (getSlotStatus spotConfirmedPast none 20).text = "Available" ∧
    (getSlotStatus spotConfirmedPast none 20).text ≠ "Completed" ∧
    slotActions (getSlotStatus spotConfirmedPast none 20) =
      [Action.reserve] := by
  refine ⟨by decide, by decide, by decide⟩

/-- C2 (amended): the CONFIRMED-to-COMPLETED behaviour lives in the admin
views: getStatusBadgeText shows COMPLETED and the periodic update step
sets status COMPLETED for a CONFIRMED reservation whose end time has been
reached; the slot-status evaluation getSlotStatus itself never produces
the label Completed. -/
theorem confirmed_completion_in_admin_views_only :
    (∀ (r : AdminReservation) (now : Int), r.status = "CONFIRMED" →
      r.end_time ≤ now →
      getStatusBadgeText r now = "COMPLETED" ∧
      autoUpdateStep r now = { r with status := "COMPLETED" }) ∧
    (∀ (spot : ParkingSpot) (user : Option Viewer) (now : Int),
      (getSlotStatus spot user now).text ≠ "Completed") := by
  constructor
  · intro r now hst hend
    constructor
    · unfold getStatusBadgeText
      rw [if_pos ⟨hst, hend⟩]
    · unfold autoUpdateStep
      rw [if_neg (by simp [hst]), if_pos ⟨hst, hend⟩]
  · intro spot user now
    rcases getSlotStatus_text_cases spot user now with h | h | h | h <;>
      simp [h]

/-- C2 amended witness: the CONFIRMED admin reservation on [0, 10] shows
the COMPLETED badge and completes at time 20, and the past CONFIRMED spot
is not labelled Completed by getSlotStatus. -/
theorem confirmed_completion_in_admin_views_only_witness :
    getStatusBadgeText adminConfirmed 20 = "COMPLETED" ∧
    autoUpdateStep adminConfirmed 20 =
      { adminConfirmed with status := "COMPLETED" } ∧
    (getSlotStatus spotConfirmedPast none 20).text ≠ "Completed" :=
  ⟨(confirmed_completion_in_admin_views_only.1 adminConfirmed 20 rfl
      (by decide)).1,
   (confirmed_completion_in_admin_views_only.1 adminConfirmed 20 rfl
      (by decide)).2,
   confirmed_completion_in_admin_views_only.2 spotConfirmedPast none 20⟩

/-- C5 counterexample: on the malformed reservation with
start_time = end_time = 5 (so start_time ≥ end_time), evaluated at time
5, getSlotStatus does not fail: it returns the ordinary label Occupied. -/
theorem degenerate_interval_returns_label :
    resDegenerate.start_time ≥ resDegenerate.end_time ∧
    getSlotStatus spotDegenerate none 5 =
      { text := "Occupied", variant := "danger" } := by
  refine ⟨by decide, by decide⟩

/-- C5 (amended): the evaluation is total and never signals a failure: on
every input, malformed intervals included, it returns one of the four
labels Pending, Occupied, Confirmed, Available; and a reservation whose
status is anything other than PENDING or CONFIRMED (the terminal statuses
and unknown values alike) is ignored, the result being the occupancy-flag
fallback. -/
theorem slot_status_total_never_fails :
    (∀ (spot : ParkingSpot) (user : Option Viewer) (now : Int),
      (getSlotStatus spot user now).text = "Pending" ∨
      (getSlotStatus spot user now).text = "Occupied" ∨
      (getSlotStatus spot user now).text = "Confirmed" ∨
      (getSlotStatus spot user now).text = "Available") ∧
    (∀ (spot : ParkingSpot) (res : CurrentReservation)
      (user : Option Viewer) (now : Int),
      spot.current_reservation = some res →
      res.status ≠ "PENDING" → res.status ≠ "CONFIRMED" →
      getSlotStatus spot user now = occupancyFallback spot) := by
  refine ⟨getSlotStatus_text_cases, ?_⟩
  intro spot res user now hres hp hc
  apply getSlotStatus_fallback
  unfold noReservationRuleMatches
  rw [hres]
  exact ⟨fun h => hp h.1, fun h => hc h.1, fun h => hc h.1⟩

/-- C5 amended witness: the degenerate-interval spot gets the label
Occupied, and the occupied spot holding a CANCELLED reservation falls
back to the occupancy flag. -/
theorem slot_status_total_never_fails_witness :
    ((getSlotStatus spotDegenerate none 5).text = "Pending" ∨
     (getSlotStatus spotDegenerate none 5).text = "Occupied" ∨
     (getSlotStatus spotDegenerate none 5).text = "Confirmed" ∨
     (getSlotStatus spotDegenerate none 5).text = "Available") ∧
    getSlotStatus spotCancelledOccupied none 7 =
      occupancyFallback spotCancelledOccupied :=
  ⟨slot_status_total_never_fails.1 spotDegenerate none 5,
   slot_status_total_never_fails.2 spotCancelledOccupied resCancelled none 7
     rfl (by decide) (by decide)⟩

/-- C3: time-monotonicity of getSlotStatus. For a fixed spot (reservation
record and occupancy flag) and viewer, and times t1 < t2, the label at t2
never moves backward relative to the label at t1: never strictly earlier
in the progression Pending, Confirmed, Occupied, Completed, never back
from Expired to Pending, and in particular never Pending, Confirmed or
Available after a Completed or Expired label. -/
theorem slot_status_time_monotone (spot : ParkingSpot)
    (user : Option Viewer) (t1 t2 : Int) (h : t1 < t2) :
    ¬ movesBackward (getSlotStatus spot user t1).text
      (getSlotStatus spot user t2).text := by
  cases hc : spot.current_reservation with
  | none =>
      simp only [getSlotStatus, hc]
      unfold occupancyFallback
      split_ifs <;> decide
  | some res =>
      simp only [getSlotStatus, hc]
      unfold occupancyFallback
      split_ifs <;> first
        | exact of_decide_eq_true rfl
        | (exfalso; try simp_all
           omega)

/-- C3 witness: for the CONFIRMED reservation on [0, 10], the genuine
transition from Confirmed (before the window, at time -5) to Occupied
(inside the window, at time 5) does not move backward. -/
theorem slot_status_time_monotone_witness :
    ¬ movesBackward (getSlotStatus spotConfirmedPast none (-5)).text
      (getSlotStatus spotConfirmedPast none 5).text :=
  slot_status_time_monotone spotConfirmedPast none (-5) 5 (by decide)

end SmartParking
